import Mathlib

set_option autoImplicit false

/-
Shallow embedding of the GitRebase MCP orchestration engine
(src/server.py, src/rebaser/*.py).  Each definition mirrors one Python
function; external effects (the git backend, the remote planner, the
filesystem) are modelled as explicit state threaded through the calls.
-/

namespace GitRebase

/-- The structured result every MCP tool returns (src/server.py, `MCPToolOutput`). -/
structure MCPToolOutput where
  success : Bool
  message : String
deriving Repr, DecidableEq

/-- Python exceptions observable at the tool boundary.  `gitCommandError`
carries the stderr text; `indexError`/`typeError` model the exceptions
of `repo.refs[...]` and `repo.active_branch`; `other` is any further
exception with its text. -/
inductive PyExn where
  | gitCommandError (stderr : String)
  | indexError
  | typeError
  | other (desc : String)
deriving Repr, DecidableEq

/-- Text of an exception, as Python would interpolate it into
an f-string message. -/
def pyExnText : PyExn → String
  | .gitCommandError s => s
  | .indexError => "IndexError"
  | .typeError => "TypeError"
  | .other d => d

/-- The `operation_type` literal of `FileOperation` (src/server.py). -/
inductive OpType where
  | modify
  | restore
  | delete
  | rename
deriving Repr, DecidableEq

/-- `FileOperation` (src/server.py): pydantic model for file operations
during rebasing.  `content` and `new_file_path` are optional. -/
structure FileOperation where
  commit_sha : String
  file_path : String
  operation_type : OpType
  content : Option String := none
  new_file_path : Option String := none
deriving Repr, DecidableEq

/-- Python truthiness of an optional string (`if not operation.content`). -/
def strTruthy : Option String → Bool
  | none => false
  | some s => !s.isEmpty

/-- A commit as the server consults it: parent shas, its tree
(path to blob content), and, per path, the entries of the first-parent
diff restricted to that path (each entry's `a_rawpath`, `none` when the
attribute is falsy). -/
structure CommitObj where
  parents : List String
  ctree : List (String × String)
  diffs : List (String × List (Option String))
deriving Repr, DecidableEq

/-- The repository state the file-operation primitives act on:
the commit store, the working tree and the staged index
(`none` content = staged deletion). -/
structure GitRepo where
  commits : List (String × CommitObj)
  files : List (String × String)
  index : List (String × Option String)
deriving Repr, DecidableEq

/-- Write one key of an association list (used for file writes and staging). -/
def setEntry {β : Type} (l : List (String × β)) (k : String) (v : β) :
    List (String × β) :=
  (k, v) :: l.filter (fun p => p.1 != k)

/-- Remove one key of an association list. -/
def removeEntry {β : Type} (l : List (String × β)) (k : String) :
    List (String × β) :=
  l.filter (fun p => p.1 != k)

/-- Outcome of one file-operation helper: an uncaught Python exception
(with the state at that point), or the helper's `str | None` status plus
the new state. -/
abbrev OpResult := Except (PyExn × GitRepo) (Option String × GitRepo)

/-- `GitRebaseMCPToolManager._modify_file` (src/server.py):
requires truthy content, writes it to the path and stages the path. -/
def modify_file (repo : GitRepo) (op : FileOperation) : OpResult :=
  if !strTruthy op.content then
    .ok (some ("Cannot modify " ++ op.file_path ++ ": No content provided"), repo)
  else
    let content := op.content.getD ""
    .ok (none,
      { repo with
        files := setEntry repo.files op.file_path content
        index := setEntry repo.index op.file_path (some content) })

/-- `GitRebaseMCPToolManager._restore_file` (src/server.py): looks up the
operation's commit, requires a parent and a diff entry for the path with
a truthy `a_rawpath`, then copies the file found at that raw path and
stages the target.  A failed commit lookup or a missing raw-path file
raises (modelled as `.error`). -/
def restore_file (repo : GitRepo) (op : FileOperation) : OpResult :=
  match repo.commits.lookup op.commit_sha with
  | none => .error (.other ("bad revision " ++ op.commit_sha), repo)
  | some c =>
    if c.parents.isEmpty then
      .ok (some ("Cannot restore " ++ op.file_path ++ ": No changes found"), repo)
    else
      match (c.diffs.lookup op.file_path).getD [] with
      | [] =>
        .ok (some ("Cannot restore " ++ op.file_path ++ ": No changes found"), repo)
      | none :: _ =>
        .ok (some ("Cannot restore " ++ op.file_path ++ ": No changes found"), repo)
      | some rawpath :: _ =>
        match repo.files.lookup rawpath with
        | none => .error (.other ("No such file " ++ rawpath), repo)
        | some content =>
          .ok (none,
            { repo with
              files := setEntry repo.files op.file_path content
              index := setEntry repo.index op.file_path (some content) })

/-- `GitRebaseMCPToolManager._delete_file` (src/server.py): requires the
path to exist on disk, then `git rm` removes it from tree and index. -/
def delete_file (repo : GitRepo) (op : FileOperation) : OpResult :=
  if (repo.files.lookup op.file_path).isNone then
    .ok (some ("Cannot delete " ++ op.file_path ++ ": file does not exist"), repo)
  else
    .ok (none,
      { repo with
        files := removeEntry repo.files op.file_path
        index := setEntry repo.index op.file_path none })

/-- `GitRebaseMCPToolManager._rename_file` (src/server.py): requires the
source to exist, a truthy destination path, and the destination to be
free; then `git mv` moves the file and stages both paths. -/
def rename_file (repo : GitRepo) (op : FileOperation) : OpResult :=
  match repo.files.lookup op.file_path with
  | none =>
    .ok (some ("Cannot rename " ++ op.file_path ++ ": Source does not exist"), repo)
  | some content =>
    if !strTruthy op.new_file_path then
      .ok (some ("Cannot rename " ++ op.file_path ++ ": No new file path provided"),
        repo)
    else
      let np := op.new_file_path.getD ""
      if (repo.files.lookup np).isSome then
        .ok (some ("Cannot rename " ++ op.file_path ++ ": Target already exists"),
          repo)
      else
        .ok (none,
          { repo with
            files := setEntry (removeEntry repo.files op.file_path) np content
            index := setEntry (setEntry repo.index op.file_path none) np
              (some content) })

/-- The dispatch table `edit[operation.operation_type]` of
`git_edit_commit`, as one exhaustive match. -/
def apply_operation (repo : GitRepo) (op : FileOperation) : OpResult :=
  match op.operation_type with
  | .modify => modify_file repo op
  | .restore => restore_file repo op
  | .delete => delete_file repo op
  | .rename => rename_file repo op

/-- The `for operation in file_operations` loop of `git_edit_commit`:
runs every operation in order, collecting each failure status, stopping
only when a helper raises. -/
def apply_operations (repo : GitRepo) (failures : List String) :
    List FileOperation → Except (PyExn × GitRepo) (List String × GitRepo)
  | [] => .ok (failures, repo)
  | op :: rest =>
    match apply_operation repo op with
    | .error e => .error e
    | .ok (some msg, repo2) => apply_operations repo2 (failures ++ [msg]) rest
    | .ok (none, repo2) => apply_operations repo2 failures rest

/-- Apply one staged index entry to a commit tree. -/
def applyIndexEntry (t : List (String × String)) :
    String × Option String → List (String × String)
  | (path, some content) => setEntry t path content
  | (path, none) => removeEntry t path

/-- Commit the staged index onto a tree (the effect of
`git commit --amend --no-edit` on the commit's tree). -/
def applyIndex (t : List (String × String))
    (idx : List (String × Option String)) : List (String × String) :=
  idx.foldl applyIndexEntry t

/-- `git commit --amend --no-edit`: rewrite the tree of the commit under
edit from the staged index; the message is untouched (not modelled). -/
def amend_commit (repo : GitRepo) (sha : String) : GitRepo :=
  { repo with
    commits := repo.commits.map (fun p =>
      if p.1 = sha then (p.1, { p.2 with ctree := applyIndex p.2.ctree repo.index })
      else p) }

/-- `GitRebaseMCPToolManager.git_edit_commit` (src/server.py): resolves
the commit (failure is a not-found response), checks it out (working
tree and index set from the commit), applies every operation collecting
failures, and either reports the batched failures with the amend
skipped, or amends the commit and returns success.  Exceptions inside
the `try` are converted at the boundary. -/
def git_edit_commit (repo : GitRepo) (commit_hash : String)
    (file_operations : List FileOperation) : MCPToolOutput × GitRepo :=
  match repo.commits.lookup commit_hash with
  | none => (⟨false, "Error: Commit '" ++ commit_hash ++ "' not found"⟩, repo)
  | some c =>
    let checked : GitRepo := { repo with files := c.ctree, index := [] }
    match apply_operations checked [] file_operations with
    | .error (.gitCommandError stderr, r) =>
      (⟨false, "Edit failed: " ++ stderr⟩, r)
    | .error (e, r) =>
      (⟨false, "An unexpected error occurred: " ++ pyExnText e⟩, r)
    | .ok (failures, r) =>
      if failures.isEmpty then
        (⟨true, "Commit edited successfully"⟩, amend_commit r commit_hash)
      else
        (⟨false, String.intercalate "\n" failures⟩, r)

/-- `RebaseCommit` (src/rebaser/model.py): a rebasing action.  The
`action` field carries the literal string (the pydantic `Literal` of the
six uppercase action names); validity is stated by `validCommit`. -/
structure RebaseCommit where
  sha : String
  action : String
  message : Option String := none
deriving Repr, DecidableEq

/-- The pydantic constraints of `RebaseCommit`: sha length 7 to 40,
action one of the six uppercase literals, message absent or non-empty. -/
def validCommit (c : RebaseCommit) : Bool :=
  (c.action ∈ ["PICK", "REWORD", "EDIT", "SQUASH", "FIXUP", "DROP"]) &&
  7 ≤ c.sha.length && c.sha.length ≤ 40 &&
  (match c.message with
   | some m => !m.isEmpty
   | none => true)

/-- The sequencer line as the spec states it: `<ACTION> <sha>`, with
` # <message>` appended exactly when the action is REWORD and the action
carries a message. -/
def specSequencerLine (c : RebaseCommit) : String :=
  match c.message with
  | some m =>
    if c.action = "REWORD" then c.action ++ " " ++ c.sha ++ " # " ++ m
    else c.action ++ " " ++ c.sha
  | none => c.action ++ " " ++ c.sha

namespace MainM

/-- One line of the loop body of `write_plan` (src/rebaser/main.py):
`f"{command.action} {command.sha}"`, extended by the reword comment when
`command.action == "REWORD" and command.message`. -/
def planLine (c : RebaseCommit) : String :=
  let line := c.action ++ " " ++ c.sha
  if c.action == "REWORD" && strTruthy c.message then
    line ++ " # " ++ c.message.getD ""
  else line

/-- `write_plan` (src/rebaser/main.py): the text written to
plan_file.txt — every command contributes one line, in order. -/
def write_plan (plan : List RebaseCommit) : String :=
  String.intercalate "\n" (plan.map planLine)

end MainM

namespace RebaseM

/-- `write_plan` (src/rebaser/rebase.py): here `commands.append(line)`
sits inside the `if command.action == "reword" and command.message`
branch, so only such lines reach the file. -/
def write_plan (plan : List RebaseCommit) : String :=
  String.intercalate "\n" (plan.foldl (fun commands c =>
    let line := c.action ++ " " ++ c.sha
    if c.action == "reword" && strTruthy c.message then
      commands ++ [line ++ " # " ++ c.message.getD ""]
    else commands) [])

end RebaseM

namespace Llm

/-- First index at which `pat` occurs in the character list, scanning
left to right (Python `str.find`, as an Option). -/
def findSubAux (pat : List Char) : List Char → Nat → Option Nat
  | [], i => if pat.isEmpty then some i else none
  | c :: rest, i =>
    if pat.isPrefixOf (c :: rest) then some i
    else findSubAux pat rest (i + 1)

/-- Python `s.find(pat)`, with `none` for the -1 case. -/
def findSub (s pat : String) : Option Nat := findSubAux pat.data s.data 0

/-- Last index at which character `c` occurs (Python `s.rfind(c)`, as an
Option). -/
def rfindCharAux (c : Char) : List Char → Nat → Option Nat → Option Nat
  | [], _, acc => acc
  | d :: rest, i, acc =>
    rfindCharAux c rest (i + 1) (if d = c then some i else acc)

/-- Python `s.rfind("]")` as an Option. -/
def rfindChar (s : String) (c : Char) : Option Nat := rfindCharAux c s.data 0 none

/-- Python slice `s[a:b]` for non-negative bounds. -/
def slice (s : String) (a b : Nat) : String := ⟨(s.data.drop a).take (b - a)⟩

/-- `validate_llm_response` (src/rebaser/llm.py).  The pydantic
deserialization `RebasePlan.model_validate_json` is abstracted into the
`parse` argument; the extraction indices are literal:
`json_start = response_text.find("[]")` and
`json_end = response_text.rfind("]") + 1`, with -1 for a failed find. -/
def validate_llm_response (parse : String → Option (List RebaseCommit))
    (response_text : String) : Except String (List RebaseCommit) :=
  let json_start : Int :=
    match findSub response_text "[]" with
    | some i => (i : Int)
    | none => -1
  let json_end : Int :=
    (match rfindChar response_text ']' with
     | some i => (i : Int)
     | none => -1) + 1
  if json_start = -1 ∨ json_end ≤ json_start then
    .error "Cannot validate response"
  else
    match parse (slice response_text json_start.toNat json_end.toNat) with
    | some plan => .ok plan
    | none => .error "ValidationError"

/-- The fallback extraction as the spec words it, for comparison: the
text between the FIRST `[` and the LAST `]` of the response. -/
def fallback_extract_spec (response_text : String) : Option String :=
  match findSub response_text "[", rfindChar response_text ']' with
  | some a, some b => if a < b + 1 then some (slice response_text a (b + 1)) else none
  | _, _ => none

/-- Outcome of one body of `call_llm` at a given attempt: a parsed plan,
a transient `APIError`, or a `ValueError` (unparsable response). -/
inductive AttemptOutcome where
  | ok (plan : List RebaseCommit)
  | apiError
  | valueError
deriving Repr, DecidableEq

/-- What a `call_llm` invocation ends in. -/
inductive CallResult where
  | ok (plan : List RebaseCommit)
  | apiError
  | valueError
deriving Repr, DecidableEq

/-- `call_llm` (src/rebaser/llm.py): the recursive retry-by-self-call.
`respond` gives the outcome of the planner call at each attempt index;
the result is returned with the list of backoff sleeps (`attempt ** 2`
seconds) performed, in order.  Only `APIError` is retried, and only
while `attempt > 3` is false. -/
def call_llm (respond : Nat → AttemptOutcome) (attempt : Nat) :
    CallResult × List Nat :=
  match respond attempt with
  | .ok plan => (.ok plan, [])
  | .valueError => (.valueError, [])
  | .apiError =>
    if h : attempt > 3 then (.apiError, [])
    else
      let rest := call_llm respond (attempt + 1)
      (rest.1, attempt ^ 2 :: rest.2)
termination_by 4 - attempt
decreasing_by omega

end Llm

namespace Agent

/-- Outcome of one body of `agent_loop` at a given attempt: the turn's
combined response text, or a transient `APIError`. -/
inductive AgentOutcome where
  | ok (text : String)
  | apiError
deriving Repr, DecidableEq

/-- `agent_loop` (src/rebaser/agent.py): the identical retry skeleton —
catch `APIError`, re-raise when `attempt > 3`, otherwise sleep
`attempt ** 2` seconds and recurse with `attempt + 1`. -/
def agent_loop (respond : Nat → AgentOutcome) (attempt : Nat) :
    Except Unit String × List Nat :=
  match respond attempt with
  | .ok t => (.ok t, [])
  | .apiError =>
    if h : attempt > 3 then (.error (), [])
    else
      let rest := agent_loop respond (attempt + 1)
      (rest.1, attempt ^ 2 :: rest.2)
termination_by 4 - attempt
decreasing_by omega

end Agent

namespace GetC

/-- The repository handle `get_commits` consults: which revisions
`repo.commit` resolves. -/
structure RepoHandle where
  resolvable : List String
deriving Repr, DecidableEq

/-- What `get_commits` ends in. -/
inductive GetCommitsResult where
  | valueError (msg : String)
  | ok
deriving Repr, DecidableEq

/-- `get_commits` (src/rebaser/get_commits.py), paired with the trace of
repository accesses performed: the equality guard runs before any
access; a `GitError` from resolving `start_sha` is converted into a
`ValueError` naming the commit. -/
def get_commits (repo : RepoHandle) (start_sha end_sha : String) :
    GetCommitsResult × List String :=
  if start_sha = end_sha then
    (.valueError "Start and end commits cannot be the same", [])
  else if start_sha ∈ repo.resolvable then
    (.ok, ["commit " ++ start_sha, "iter_commits " ++ start_sha ++ ".." ++ end_sha])
  else
    (.valueError ("Commit " ++ start_sha ++ " not found in repository"),
      ["commit " ++ start_sha])

end GetC

namespace MainM

/-- The externally visible phases `main` (src/rebaser/main.py) runs:
reading history (clone/open plus commit extraction), the LLM call,
writing the plan file, and driving the agent with a plan file's
contents. -/
inductive MainStep where
  | readHistory
  | llmCall
  | planWrite (contents : String)
  | runAgent (planContents : String)
deriving Repr, DecidableEq

/-- What `main` finds and would produce: whether plan_file.txt already
exists next to the module, its contents when it does, and the plan the
generation pipeline would return. -/
structure MainEnv where
  planFileExists : Bool
  planFileContents : String
  generatedPlan : List RebaseCommit
deriving Repr, DecidableEq

/-- `main` (src/rebaser/main.py) as its phase trace: the history read,
the LLM call and the plan write happen only under
`if not plan_file.exists()`; the agent is always driven with the plan
file last. -/
def mainRun (env : MainEnv) : List MainStep :=
  if env.planFileExists then
    [.runAgent env.planFileContents]
  else
    [.readHistory, .llmCall, .planWrite (write_plan env.generatedPlan),
     .runAgent (write_plan env.generatedPlan)]

end MainM

/-- Substring test (Python `in` on strings). -/
def strContains (s pat : String) : Bool := (Llm.findSub s pat).isSome

namespace Server

/-- Environment of one `git_resume_rebase` call (src/server.py): whether
the session artifacts (.git/rebase-apply or .git/rebase-merge) exist
before the call, what `git rebase --continue` does (`.error stderr` =
GitCommandError), and the observations after a successful continue. -/
structure ResumeEnv where
  rebaseDirBefore : Bool
  continueError : Option String
  rebaseDirAfter : Bool
  conflictsAfter : Bool
  conflictsText : String
deriving Repr, DecidableEq

/-- `git_resume_rebase` (src/server.py): invokes `git rebase --continue`
unconditionally; a command failure is reported from its stderr text; on
success the rebase directories and the index conflicts pick the message.
The boolean of the result records whether the underlying continue was
invoked. -/
def git_resume_rebase (env : ResumeEnv) : MCPToolOutput × Bool :=
  match env.continueError with
  | some stderr =>
    if !strContains stderr "conflicts" then
      (⟨false, "Rebase paused due to: " ++ stderr⟩, true)
    else
      (⟨false, "Rebase paused due to conflicts: " ++ stderr⟩, true)
  | none =>
    if !env.rebaseDirAfter then
      (⟨true, "Rebase completed successfully."⟩, true)
    else if env.conflictsAfter then
      (⟨false, "Rebase paused due to new conflicts: " ++ env.conflictsText⟩, true)
    else
      (⟨true, "Rebase continued, but there are more commits to process."⟩, true)

/-- Environment of `git_create_branch` (src/server.py): the branch
heads, all refs, the active branch (`none` = detached HEAD, whose access
raises TypeError), and whether `create_head` raises a GitCommandError
(with its stderr). -/
structure BranchEnv where
  heads : List String
  refs : List String
  activeBranch : Option String
  createHeadError : Option String
deriving Repr, DecidableEq

/-- `git_create_branch` (src/server.py): only `git.GitCommandError` is
caught; the IndexError of a missing base ref and the TypeError of a
detached HEAD propagate out of the operation unhandled. -/
def git_create_branch (env : BranchEnv) (branch_name : String)
    (base_branch : Option String) : Except PyExn MCPToolOutput :=
  if branch_name ∈ env.heads then
    .ok ⟨false, "Branch '" ++ branch_name ++ "' already exists"⟩
  else
    let base : Except PyExn String :=
      match base_branch with
      | some b => if b ∈ env.refs then .ok b else .error .indexError
      | none =>
        match env.activeBranch with
        | some b => .ok b
        | none => .error .typeError
    match base with
    | .error e => .error e
    | .ok b =>
      match env.createHeadError with
      | some stderr => .ok ⟨false, "Failed to create branch: " ++ stderr⟩
      | none =>
        .ok ⟨true, "Created branch '" ++ branch_name ++ "' from '" ++ b ++ "'"⟩

/-- `git_commit` (src/server.py): `self.repo.index.commit(message)` may
raise; only a GitCommandError is converted into a failure response,
every other exception propagates. -/
def git_commit (commitOutcome : Except PyExn String) (_message : String) :
    Except PyExn MCPToolOutput :=
  match commitOutcome with
  | .ok hexsha =>
    .ok ⟨true, "Changes committed successfully with hash " ++ hexsha⟩
  | .error (.gitCommandError stderr) =>
    .ok ⟨false, "Failed to commit changes: " ++ stderr⟩
  | .error e => .error e

/-- Whether a tool call escapes with a `GitCommandError` (the boundary
is meant to convert those into failure responses). -/
def leaksGitCommandError {α : Type} : Except PyExn α → Bool
  | .error (.gitCommandError _) => true
  | _ => false

end Server

namespace RebaseMcp

/-- `git_resume_rebase` (src/rebaser/rebase_mcp_server.py): checks the
session artifacts first and reports a no-active-session failure without
running the continue; otherwise behaves like the other server, with the
conflict branch first. -/
def git_resume_rebase (env : Server.ResumeEnv) : MCPToolOutput × Bool :=
  if !env.rebaseDirBefore then
    (⟨false, "Error: No rebase in progress."⟩, false)
  else
    match env.continueError with
    | none => (⟨true, "Rebase continued successfully."⟩, true)
    | some stderr =>
      if strContains stderr "conflicts" then
        (⟨false, "Rebase paused due to conflicts: " ++ stderr⟩, true)
      else
        (⟨false, "Rebase paused due to: " ++ stderr⟩, true)

end RebaseMcp

/-! ## Helper lemmas: the file-operation helpers never touch the commit store -/

theorem modify_file_commits {repo : GitRepo} {op : FileOperation}
    {m : Option String} {r : GitRepo} (h : modify_file repo op = .ok (m, r)) :
    r.commits = repo.commits := by
  unfold modify_file at h
  try dsimp only at h
  repeat' split at h
  all_goals simp only [Except.ok.injEq, Prod.mk.injEq, reduceCtorEq] at h
  all_goals (obtain ⟨h1, rfl⟩ := h; rfl)

theorem restore_file_commits {repo : GitRepo} {op : FileOperation}
    {m : Option String} {r : GitRepo} (h : restore_file repo op = .ok (m, r)) :
    r.commits = repo.commits := by
  unfold restore_file at h
  try dsimp only at h
  repeat' split at h
  all_goals simp only [Except.ok.injEq, Prod.mk.injEq, reduceCtorEq] at h
  all_goals (obtain ⟨h1, rfl⟩ := h; rfl)

theorem delete_file_commits {repo : GitRepo} {op : FileOperation}
    {m : Option String} {r : GitRepo} (h : delete_file repo op = .ok (m, r)) :
    r.commits = repo.commits := by
  unfold delete_file at h
  try dsimp only at h
  repeat' split at h
  all_goals simp only [Except.ok.injEq, Prod.mk.injEq, reduceCtorEq] at h
  all_goals (obtain ⟨h1, rfl⟩ := h; rfl)

theorem rename_file_commits {repo : GitRepo} {op : FileOperation}
    {m : Option String} {r : GitRepo} (h : rename_file repo op = .ok (m, r)) :
    r.commits = repo.commits := by
  unfold rename_file at h
  try dsimp only at h
  repeat' split at h
  all_goals simp only [Except.ok.injEq, Prod.mk.injEq, reduceCtorEq] at h
  all_goals (obtain ⟨h1, rfl⟩ := h; rfl)

theorem apply_operation_commits {repo : GitRepo} {op : FileOperation}
    {m : Option String} {r : GitRepo} (h : apply_operation repo op = .ok (m, r)) :
    r.commits = repo.commits := by
  unfold apply_operation at h
  split at h
  · exact modify_file_commits h
  · exact restore_file_commits h
  · exact delete_file_commits h
  · exact rename_file_commits h

theorem apply_operations_commits (ops : List FileOperation) :
    ∀ (repo : GitRepo) (fs0 fs : List String) (r : GitRepo),
      apply_operations repo fs0 ops = .ok (fs, r) → r.commits = repo.commits := by
  induction ops with
  | nil =>
    intro repo fs0 fs r h
    unfold apply_operations at h
    simp_all
  | cons op rest ih =>
    intro repo fs0 fs r h
    unfold apply_operations at h
    cases hop : apply_operation repo op with
    | error e => rw [hop] at h; cases h
    | ok pr =>
      obtain ⟨msg, repo2⟩ := pr
      rw [hop] at h
      have h2 : repo2.commits = repo.commits := apply_operation_commits hop
      cases msg with
      | some m =>
        simp only at h
        rw [ih repo2 _ fs r h, h2]
      | none =>
        simp only at h
        rw [ih repo2 _ fs r h, h2]

/-! ## Claim C7: restore with no prior version -/

/-- C7: a restore file operation whose target commit resolves to a root
commit (no parents), or whose path has no entry in that commit's
first-parent diff, fails with the no-prior-version message
`Cannot restore <path>: No changes found` and writes nothing to the
working tree (the repository state is returned untouched). -/
theorem c7_restore_no_prior_version (repo : GitRepo) (op : FileOperation)
    (c : CommitObj) (hc : repo.commits.lookup op.commit_sha = some c)
    (h : c.parents = [] ∨ (c.diffs.lookup op.file_path).getD [] = []) :
    restore_file repo op =
      .ok (some ("Cannot restore " ++ op.file_path ++ ": No changes found"), repo) := by
  unfold restore_file
  rw [hc]
  rcases h with h | h
  · simp [h]
  · cases hp : c.parents.isEmpty <;> simp [hp, h]

/-- A concrete repository whose only commit is a root commit. -/
def repoC7 : GitRepo :=
  { commits := [("abc1234", { parents := [], ctree := [("a.txt", "x")], diffs := [] })]
    files := [("a.txt", "x")]
    index := [] }

/-- Witness for C7: restoring any path at the root commit of `repoC7`
fails with the no-prior-version message and changes nothing. -/
theorem c7_restore_no_prior_version_witness :
    restore_file repoC7 ⟨"abc1234", "f.txt", .restore, none, none⟩ =
      .ok (some "Cannot restore f.txt: No changes found", repoC7) :=
  c7_restore_no_prior_version repoC7 ⟨"abc1234", "f.txt", .restore, none, none⟩
    { parents := [], ctree := [("a.txt", "x")], diffs := [] } rfl (Or.inl rfl)

/-! ## Claim C8: rename onto an existing destination -/

/-- C8: a rename file operation whose source exists and whose
destination path already exists fails with the path-conflict message
`Cannot rename <path>: Target already exists`; the repository is
returned untouched, so the source file remains at its original path and
no other file is affected. -/
theorem c8_rename_target_exists (repo : GitRepo) (op : FileOperation)
    (content np : String)
    (hsrc : repo.files.lookup op.file_path = some content)
    (hnp : op.new_file_path = some np)
    (htr : strTruthy op.new_file_path = true)
    (hdst : (repo.files.lookup np).isSome = true) :
    rename_file repo op =
      .ok (some ("Cannot rename " ++ op.file_path ++ ": Target already exists"),
        repo) := by
  unfold rename_file
  rw [hsrc]
  rw [hnp] at htr
  simp [hnp, htr, hdst]

/-- A concrete repository holding both `x.txt` and `y.txt`. -/
def repoC8 : GitRepo :=
  { commits := [], files := [("x.txt", "sx"), ("y.txt", "sy")], index := [] }

/-- Witness for C8: renaming `x.txt` onto the occupied `y.txt` fails
with the path-conflict message and changes nothing. -/
theorem c8_rename_target_exists_witness :
    rename_file repoC8 ⟨"abc1234", "x.txt", .rename, none, some "y.txt"⟩ =
      .ok (some "Cannot rename x.txt: Target already exists", repoC8) :=
  c8_rename_target_exists repoC8 ⟨"abc1234", "x.txt", .rename, none, some "y.txt"⟩
    "sx" "y.txt" rfl rfl rfl rfl

/-! ## Claim C1: batched failures in git_edit_commit -/

/-- The commit under edit in the C1 scenario: `a.txt` holds `old`. -/
def commitC1 : CommitObj :=
  { parents := ["p000000"], ctree := [("a.txt", "old")], diffs := [] }

/-- The repository of the C1 scenario. -/
def repoC1 : GitRepo :=
  { commits := [("abc1234", commitC1)], files := [("a.txt", "old")], index := [] }

/-- Scenario B of the spec: modify `a.txt`, then delete the missing
`missing.txt`. -/
def opsC1 : List FileOperation :=
  [⟨"abc1234", "a.txt", .modify, some "hello", none⟩,
   ⟨"abc1234", "missing.txt", .delete, none, none⟩]

/-- State after the C1 scenario: the working tree holds the modified
`a.txt` and the modification is staged, but the commit is unchanged. -/
def repoC1after : GitRepo :=
  { commits := [("abc1234", commitC1)]
    files := [("a.txt", "hello")]
    index := [("a.txt", some "hello")] }

/-- C1: `git_edit_commit` on a resolvable commit collects the failures
of the individual operations without interrupting the remaining
operations, reports them joined as one batched failure message with
`success := false`, and skips the amend entirely (the commit store is
unchanged); in the concrete scenario — modify `a.txt` then delete the
missing `missing.txt` — the call returns
`Cannot delete missing.txt: file does not exist` and `a.txt` is
unchanged in the commit. -/
theorem c1_edit_commit_batched_failures :
    (∀ (repo : GitRepo) (commit_hash : String) (ops : List FileOperation)
       (c : CommitObj) (fs : List String) (r : GitRepo),
      repo.commits.lookup commit_hash = some c →
      apply_operations { repo with files := c.ctree, index := [] } [] ops =
        .ok (fs, r) →
      fs ≠ [] →
      git_edit_commit repo commit_hash ops =
        (⟨false, String.intercalate "\n" fs⟩, r) ∧ r.commits = repo.commits) ∧
    (git_edit_commit repoC1 "abc1234" opsC1 =
        (⟨false, "Cannot delete missing.txt: file does not exist"⟩, repoC1after) ∧
      (repoC1after.commits.lookup "abc1234").map CommitObj.ctree =
        some [("a.txt", "old")]) := by
  constructor
  · intro repo commit_hash ops c fs r hc hops hne
    constructor
    · unfold git_edit_commit
      rw [hc]
      dsimp only
      rw [hops]
      cases fs with
      | nil => exact absurd rfl hne
      | cons a t => rfl
    · exact apply_operations_commits ops
        { repo with files := c.ctree, index := [] } [] fs r hops
  · exact ⟨rfl, rfl⟩

/-- Witness for C1: the general half applied at the concrete scenario. -/
theorem c1_edit_commit_batched_failures_witness :
    git_edit_commit repoC1 "abc1234" opsC1 =
      (⟨false,
        String.intercalate "\n" ["Cannot delete missing.txt: file does not exist"]⟩,
        repoC1after) ∧ repoC1after.commits = repoC1.commits :=
  c1_edit_commit_batched_failures.1 repoC1 "abc1234" opsC1 commitC1
    ["Cannot delete missing.txt: file does not exist"] repoC1after rfl rfl
    (by decide)

/-! ## Claim C2: the sequencer file lines -/

/-- For a commit satisfying the pydantic constraints, the line the
entry-point `write_plan` writes is exactly the spec's sequencer line. -/
theorem planLine_eq_specSequencerLine (c : RebaseCommit)
    (hv : validCommit c = true) : MainM.planLine c = specSequencerLine c := by
  unfold MainM.planLine specSequencerLine
  unfold validCommit at hv
  cases hm : c.message with
  | none => simp [strTruthy, hm]
  | some m =>
    rw [hm] at hv
    simp only [Bool.and_eq_true] at hv
    have hne : m.isEmpty = false := by
      cases he : m.isEmpty
      · rfl
      · rw [he] at hv; simp at hv
    by_cases ha : c.action = "REWORD"
    · simp [strTruthy, ha, hne]
    · simp [strTruthy, ha, hne]

/-- C2 (amended): for every plan satisfying the pydantic constraints,
the sequencer file written by the entry-point `write_plan`
(src/rebaser/main.py) contains exactly one line per action of the plan,
in plan order, each `<ACTION> <sha>`, with ` # <message>` appended
exactly when the action is REWORD and carries a message.  (The unused
`write_plan` of src/rebaser/rebase.py deviates: see the
counterexample.) -/
theorem c2_write_plan_lines (plan : List RebaseCommit)
    (hv : ∀ c ∈ plan, validCommit c = true) :
    MainM.write_plan plan = String.intercalate "\n" (plan.map specSequencerLine) ∧
    (plan.map specSequencerLine).length = plan.length := by
  refine ⟨?_, by simp⟩
  unfold MainM.write_plan
  congr 1
  exact List.map_congr_left (fun c hcp => planLine_eq_specSequencerLine c (hv c hcp))

/-- The plan of end-to-end scenario A. -/
def planC2 : List RebaseCommit :=
  [⟨"abc1234", "PICK", none⟩, ⟨"def5678", "REWORD", some "fix: typo"⟩]

/-- Witness for C2 at the scenario-A plan. -/
theorem c2_write_plan_lines_witness :
    MainM.write_plan planC2 =
      String.intercalate "\n" (planC2.map specSequencerLine) ∧
    (planC2.map specSequencerLine).length = planC2.length :=
  c2_write_plan_lines planC2 (by decide)

/-- C2 counterexample: on the valid one-action plan `PICK abc1234` the
`write_plan` of src/rebaser/rebase.py writes an EMPTY file — not one
line per action — because its `commands.append(line)` sits inside the
lowercase-`"reword"` branch, which a validated (uppercase) action never
enters; the entry-point `write_plan` writes the line. -/
theorem c2_write_plan_counterexample :
    validCommit ⟨"abc1234", "PICK", none⟩ = true ∧
    RebaseM.write_plan [⟨"abc1234", "PICK", none⟩] = "" ∧
    MainM.write_plan [⟨"abc1234", "PICK", none⟩] = "PICK abc1234" :=
  ⟨by decide, rfl, rfl⟩

/-! ## Claim C4: the fallback extraction of a JSON array -/

/-- C4: the fallback parsing of `validate_llm_response` searches for the
two-character substring `[]` (`find("[]")`), not for the first `[`: on
the response `plan: [1, 2]` — which has a JSON array between its first
`[` and its last `]`, as the spec-worded extractor shows — the code
raises `Cannot validate response` whatever the JSON deserializer would
do. -/
theorem c4_fallback_find_bug :
    (∀ parse, Llm.validate_llm_response parse "plan: [1, 2]" =
      .error "Cannot validate response") ∧
    Llm.fallback_extract_spec "plan: [1, 2]" = some "[1, 2]" :=
  ⟨fun _ => rfl, rfl⟩

/-! ## Claim C9: main skips plan generation when the plan file exists -/

/-- C9: when plan_file.txt already exists next to the module, `main`
performs no history reading (clone plus commit extraction), no LLM call
and no plan write — its whole trace is driving the agent with the
pre-existing plan file contents unchanged. -/
theorem c9_main_skips_plan_generation (env : MainM.MainEnv)
    (h : env.planFileExists = true) :
    MainM.mainRun env = [.runAgent env.planFileContents] ∧
    MainM.MainStep.readHistory ∉ MainM.mainRun env ∧
    MainM.MainStep.llmCall ∉ MainM.mainRun env := by
  unfold MainM.mainRun
  rw [h]
  simp

/-- A run finding a pre-existing plan file. -/
def envC9 : MainM.MainEnv :=
  { planFileExists := true, planFileContents := "PICK abc1234", generatedPlan := [] }

/-- Witness for C9 at a concrete pre-existing plan file. -/
theorem c9_main_skips_plan_generation_witness :
    MainM.mainRun envC9 = [.runAgent "PICK abc1234"] ∧
    MainM.MainStep.readHistory ∉ MainM.mainRun envC9 ∧
    MainM.MainStep.llmCall ∉ MainM.mainRun envC9 :=
  c9_main_skips_plan_generation envC9 rfl

/-! ## Claim C10: get_commits argument validation -/

/-- C10: `get_commits` raises the ValueError for equal start and end
shas before any repository access (its access trace is empty), and a
failure to resolve `start_sha` is converted into a ValueError naming the
missing commit instead of escaping as the backend error. -/
theorem c10_get_commits_validation (repo : GetC.RepoHandle) (s e : String) :
    (s = e → GetC.get_commits repo s e =
      (.valueError "Start and end commits cannot be the same", [])) ∧
    (s ≠ e → s ∉ repo.resolvable → GetC.get_commits repo s e =
      (.valueError ("Commit " ++ s ++ " not found in repository"),
        ["commit " ++ s])) := by
  constructor
  · intro hse
    unfold GetC.get_commits
    rw [if_pos hse]
  · intro hse hres
    unfold GetC.get_commits
    rw [if_neg hse, if_neg hres]

/-- A repository handle resolving only `abc1234`. -/
def repoC10 : GetC.RepoHandle := ⟨["abc1234"]⟩

/-- Witness for C10 at concrete shas. -/
theorem c10_get_commits_validation_witness :
    GetC.get_commits repoC10 "aaa" "aaa" =
      (.valueError "Start and end commits cannot be the same", []) ∧
    GetC.get_commits repoC10 "bbb" "ccc" =
      (.valueError "Commit bbb not found in repository", ["commit bbb"]) :=
  ⟨(c10_get_commits_validation repoC10 "aaa" "aaa").1 rfl,
   (c10_get_commits_validation repoC10 "bbb" "ccc").2 (by decide) (by decide)⟩

/-! ## Claim C6: resume with no session artifacts -/

/-- C6 (amended): with no session artifacts, the resume of
src/rebaser/rebase_mcp_server.py fails with
`Error: No rebase in progress.` without invoking the continue; the
resume of src/server.py instead always invokes `git rebase --continue`
and, when the backend fails without conflicts in its stderr, surfaces
that stderr in a `Rebase paused due to:` report. -/
theorem c6_resume_no_session (env : Server.ResumeEnv)
    (hdir : env.rebaseDirBefore = false) :
    RebaseMcp.git_resume_rebase env =
      (⟨false, "Error: No rebase in progress."⟩, false) ∧
    (∀ stderr, env.continueError = some stderr →
      strContains stderr "conflicts" = false →
      Server.git_resume_rebase env =
        (⟨false, "Rebase paused due to: " ++ stderr⟩, true)) := by
  constructor
  · unfold RebaseMcp.git_resume_rebase
    rw [hdir]
    rfl
  · intro stderr hce hnc
    unfold Server.git_resume_rebase
    rw [hce]
    simp [hnc]

/-- A resume call arriving with no session artifacts: the backend
`git rebase --continue` then fails on its own. -/
def envC6 : Server.ResumeEnv :=
  { rebaseDirBefore := false
    continueError := some "fatal: no rebase in progress"
    rebaseDirAfter := false
    conflictsAfter := false
    conflictsText := "" }

/-- C6 counterexample: with no session artifacts, the src/server.py
resume still invokes the underlying `git rebase --continue` (the flag of
the result is `true`) and reports the backend stderr — not the
no-active-session report, and not without attempting the continue. -/
theorem c6_resume_counterexample :
    Server.git_resume_rebase envC6 =
      (⟨false, "Rebase paused due to: fatal: no rebase in progress"⟩, true) := rfl

/-- Witness for C6 at the concrete environment. -/
theorem c6_resume_no_session_witness :
    RebaseMcp.git_resume_rebase envC6 =
      (⟨false, "Error: No rebase in progress."⟩, false) ∧
    Server.git_resume_rebase envC6 =
      (⟨false, "Rebase paused due to: fatal: no rebase in progress"⟩, true) :=
  ⟨(c6_resume_no_session envC6 rfl).1,
   (c6_resume_no_session envC6 rfl).2 "fatal: no rebase in progress" rfl rfl⟩

/-! ## Claim C5: the tool-contract error boundary -/

/-- C5 (amended): the boundary of `git_create_branch` and `git_commit`
converts every backend `GitCommandError` into a structured
`success := false` response — neither operation ever lets one escape —
but, catching only that class, other unexpected errors (a missing base
ref, a detached HEAD, a non-command commit failure) propagate unhandled
(see the counterexample). -/
theorem c5_boundary_converts_git_errors :
    (∀ (env : Server.BranchEnv) (branch_name : String)
       (base_branch : Option String),
      Server.leaksGitCommandError
        (Server.git_create_branch env branch_name base_branch) = false) ∧
    (∀ (commitOutcome : Except PyExn String) (message : String),
      Server.leaksGitCommandError
        (Server.git_commit commitOutcome message) = false) := by
  constructor
  · intro env branch_name base_branch
    unfold Server.git_create_branch
    split
    · rfl
    · cases base_branch with
      | some b =>
        by_cases hb : b ∈ env.refs
        · simp only [if_pos hb]
          cases env.createHeadError <;> rfl
        · simp only [if_neg hb]
          rfl
      | none =>
        cases env.activeBranch with
        | some b => cases env.createHeadError <;> rfl
        | none => rfl
  · intro commitOutcome message
    cases commitOutcome with
    | ok sha => rfl
    | error e => cases e <;> rfl

/-- An environment whose refs do not include the requested base. -/
def envC5 : Server.BranchEnv :=
  { heads := [], refs := ["main"], activeBranch := some "main"
    createHeadError := none }

/-- C5 counterexample: `git_create_branch` with a base branch that is
not among the refs escapes with an IndexError — an unhandled exception
through the tool boundary, not a `success := false` response. -/
theorem c5_boundary_counterexample :
    Server.git_create_branch envC5 "feature" (some "missing") =
      .error .indexError := rfl

/-! ## Claim C3: the bounded retry policy of both call sites -/

namespace Llm

/-- A successful planner call returns at once, with no sleep. -/
theorem call_llm_ok (respond : Nat → AttemptOutcome) (attempt : Nat)
    (plan : List RebaseCommit) (h : respond attempt = .ok plan) :
    call_llm respond attempt = (.ok plan, []) := by
  unfold call_llm
  rw [h]

/-- An APIError past the guard (`attempt > 3`) is re-raised at once. -/
theorem call_llm_stop (respond : Nat → AttemptOutcome) (attempt : Nat)
    (hgt : attempt > 3) (h : respond attempt = .apiError) :
    call_llm respond attempt = (.apiError, []) := by
  unfold call_llm
  rw [h]
  simp [hgt]

/-- An APIError within the guard sleeps `attempt ^ 2` seconds and
recurses with `attempt + 1`. -/
theorem call_llm_retry (respond : Nat → AttemptOutcome) (attempt : Nat)
    (hle : ¬attempt > 3) (h : respond attempt = .apiError) :
    call_llm respond attempt =
      ((call_llm respond (attempt + 1)).1,
        attempt ^ 2 :: (call_llm respond (attempt + 1)).2) := by
  conv_lhs => rw [call_llm.eq_def]
  rw [h]
  simp [hle]

end Llm

namespace Agent

/-- A successful agent turn returns at once, with no sleep. -/
theorem agent_loop_ok (respond : Nat → AgentOutcome) (attempt : Nat)
    (t : String) (h : respond attempt = .ok t) :
    agent_loop respond attempt = (.ok t, []) := by
  unfold agent_loop
  rw [h]

/-- An APIError past the guard (`attempt > 3`) is re-raised at once. -/
theorem agent_loop_stop (respond : Nat → AgentOutcome) (attempt : Nat)
    (hgt : attempt > 3) (h : respond attempt = .apiError) :
    agent_loop respond attempt = (.error (), []) := by
  unfold agent_loop
  rw [h]
  simp [hgt]

/-- An APIError within the guard sleeps `attempt ^ 2` seconds and
recurses with `attempt + 1`. -/
theorem agent_loop_retry (respond : Nat → AgentOutcome) (attempt : Nat)
    (hle : ¬attempt > 3) (h : respond attempt = .apiError) :
    agent_loop respond attempt =
      ((agent_loop respond (attempt + 1)).1,
        attempt ^ 2 :: (agent_loop respond (attempt + 1)).2) := by
  conv_lhs => rw [agent_loop.eq_def]
  rw [h]
  simp [hle]

end Agent

/-- C3 (amended): with a transiently failing planner, both `call_llm`
and `agent_loop` make 5 attempts total (indices 0 through 4), sleeping
`attempt ^ 2` = 0, 1, 4, 9 seconds between attempts, and propagate the
error after the 5th failure; the two call sites follow the same
policy. -/
theorem c3_retry_policy (respond : Nat → Llm.AttemptOutcome)
    (ar : Nat → Agent.AgentOutcome)
    (h1 : ∀ n, n ≤ 4 → respond n = .apiError)
    (h2 : ∀ n, n ≤ 4 → ar n = .apiError) :
    Llm.call_llm respond 0 = (.apiError, [0, 1, 4, 9]) ∧
    Agent.agent_loop ar 0 = (.error (), [0, 1, 4, 9]) := by
  have e4 : Llm.call_llm respond 4 = (.apiError, []) :=
    Llm.call_llm_stop respond 4 (by omega) (h1 4 (by omega))
  have e3 : Llm.call_llm respond 3 = (.apiError, [9]) := by
    rw [Llm.call_llm_retry respond 3 (by omega) (h1 3 (by omega)), e4]; rfl
  have e2 : Llm.call_llm respond 2 = (.apiError, [4, 9]) := by
    rw [Llm.call_llm_retry respond 2 (by omega) (h1 2 (by omega)), e3]; rfl
  have e1 : Llm.call_llm respond 1 = (.apiError, [1, 4, 9]) := by
    rw [Llm.call_llm_retry respond 1 (by omega) (h1 1 (by omega)), e2]; rfl
  have e0 : Llm.call_llm respond 0 = (.apiError, [0, 1, 4, 9]) := by
    rw [Llm.call_llm_retry respond 0 (by omega) (h1 0 (by omega)), e1]; rfl
  have f4 : Agent.agent_loop ar 4 = (.error (), []) :=
    Agent.agent_loop_stop ar 4 (by omega) (h2 4 (by omega))
  have f3 : Agent.agent_loop ar 3 = (.error (), [9]) := by
    rw [Agent.agent_loop_retry ar 3 (by omega) (h2 3 (by omega)), f4]; rfl
  have f2 : Agent.agent_loop ar 2 = (.error (), [4, 9]) := by
    rw [Agent.agent_loop_retry ar 2 (by omega) (h2 2 (by omega)), f3]; rfl
  have f1 : Agent.agent_loop ar 1 = (.error (), [1, 4, 9]) := by
    rw [Agent.agent_loop_retry ar 1 (by omega) (h2 1 (by omega)), f2]; rfl
  have f0 : Agent.agent_loop ar 0 = (.error (), [0, 1, 4, 9]) := by
    rw [Agent.agent_loop_retry ar 0 (by omega) (h2 0 (by omega)), f1]; rfl
  exact ⟨e0, f0⟩

/-- Witness for C3: a planner failing on every attempt. -/
theorem c3_retry_policy_witness :
    Llm.call_llm (fun _ => .apiError) 0 = (.apiError, [0, 1, 4, 9]) ∧
    Agent.agent_loop (fun _ => .apiError) 0 = (.error (), [0, 1, 4, 9]) :=
  c3_retry_policy (fun _ => .apiError) (fun _ => .apiError)
    (fun _ _ => rfl) (fun _ _ => rfl)

/-- A planner failing on attempts 0 through 3 and succeeding on
attempt 4. -/
def respondC3 : Nat → Llm.AttemptOutcome :=
  fun n => if n ≤ 3 then .apiError else .ok []

/-- C3 counterexample: after four failures (attempts 0 to 3) the error
is NOT propagated — the code sleeps 0, 1, 4 and 9 seconds and a success
on the 5th attempt (index 4) is still returned, so the policy is 5
attempts total, not 4 with propagation on the 4th failure. -/
theorem c3_retry_counterexample :
    Llm.call_llm respondC3 0 = (.ok [], [0, 1, 4, 9]) := by
  have e4 : Llm.call_llm respondC3 4 = (.ok [], []) :=
    Llm.call_llm_ok respondC3 4 [] rfl
  have e3 : Llm.call_llm respondC3 3 = (.ok [], [9]) := by
    rw [Llm.call_llm_retry respondC3 3 (by omega) rfl, e4]; rfl
  have e2 : Llm.call_llm respondC3 2 = (.ok [], [4, 9]) := by
    rw [Llm.call_llm_retry respondC3 2 (by omega) rfl, e3]; rfl
  have e1 : Llm.call_llm respondC3 1 = (.ok [], [1, 4, 9]) := by
    rw [Llm.call_llm_retry respondC3 1 (by omega) rfl, e2]; rfl
  rw [Llm.call_llm_retry respondC3 0 (by omega) rfl, e1]; rfl

end GitRebase
